import Mathlib

/-!
Verification development for the lazymate repository.

The definitions below are a shallow embedding of the parts of the source
relevant to the frozen claims:

* `apps/api/app/controllers/companies_controller.ts` and the applications
  controller (`src/unnamed/part_000`): the `store` endpoints with their
  duplicate pre-check and HTTP status codes.
* the renderer API client (`src/unnamed/part_001`): the `request` helper that
  throws on any non-2xx response.
* `src/main/ollama.ts`: `cosineSimilarity`, `getEmbedding`, the two-stage
  relevance filter `isJobTitleRelevant` / `isJobRelevant`, the in-memory
  `jobTitleCache` with FIFO eviction, and the thresholds.

Real numbers stand in for JS floats; a JS `Map` is a key-ordered association
list; a rejected promise is an `Except.error`.
-/

namespace LazyMate

/-! ## API data model (controllers and client) -/

/-- A row of the `Company` table as the companies controller reads and
writes it: `{ url, name, status }` (id and timestamps are irrelevant to the
claims and omitted). -/
structure CompanyRow where
  url : String
  name : String
  status : String
deriving DecidableEq

/-- A row of the `Application` table as the applications controller reads
and writes it. -/
structure ApplicationRow where
  jobTitle : String
  companyName : String
  jobUrl : String
  coverLetter : String
  status : String
  matchScore : Option Int
deriving DecidableEq

/-- Request body of `POST /companies` after
`request.only(["url", "name", "status"])`: every other field of the incoming
body — in particular any owner identifier — is discarded by `request.only`. -/
structure NewCompanyData where
  url : String
  name : String
  status : Option String
deriving DecidableEq

/-- Request body of `POST /applications` after `request.only([...])`. -/
structure NewApplicationData where
  jobTitle : String
  companyName : String
  jobUrl : String
  coverLetter : String
  status : Option String
  matchScore : Option Int
deriving DecidableEq

/-- JS `x || dflt` on an optional string field: `undefined` and the empty
string are falsy and give the default. -/
def jsOrDefault (s : Option String) (dflt : String) : String :=
  match s with
  | none => dflt
  | some v => if v = "" then dflt else v

/-- `prisma.company.findUnique({ where: { url } })`: the lookup is keyed by
`url` alone. -/
def company_findUnique (db : List CompanyRow) (url : String) : Option CompanyRow :=
  db.find? (fun c => c.url == url)

/-- `prisma.application.findUnique({ where: { jobUrl } })`: the lookup is
keyed by `jobUrl` alone. -/
def application_findUnique (db : List ApplicationRow) (jobUrl : String) : Option ApplicationRow :=
  db.find? (fun a => a.jobUrl == jobUrl)

/-- `CompaniesController.store`: pre-check by `url`; on hit respond 409 and
leave the table unchanged, otherwise create the row and respond 201.
Returns (HTTP status, table after the call). -/
def companies_store (db : List CompanyRow) (data : NewCompanyData) :
    Nat × List CompanyRow :=
  match company_findUnique db data.url with
  | some _ => (409, db)
  | none =>
      (201, db ++ [{ url := data.url, name := data.name,
                     status := jsOrDefault data.status "visited" }])

/-- `ApplicationsController.store`: pre-check by `jobUrl`; on hit respond 409
and leave the table unchanged, otherwise create the row and respond 201. -/
def applications_store (db : List ApplicationRow) (data : NewApplicationData) :
    Nat × List ApplicationRow :=
  match application_findUnique db data.jobUrl with
  | some _ => (409, db)
  | none =>
      (201, db ++ [{ jobTitle := data.jobTitle, companyName := data.companyName,
                     jobUrl := data.jobUrl, coverLetter := data.coverLetter,
                     status := jsOrDefault data.status "submitted",
                     matchScore := data.matchScore }])

/-- The companies `store` endpoint as invoked by a caller acting for a given
owner. `request.only(["url", "name", "status"])` drops every other field of
the request, so the owner identifier never reaches the query or the insert. -/
def companies_store_withOwner (_ownerId : String) (db : List CompanyRow)
    (data : NewCompanyData) : Nat × List CompanyRow :=
  companies_store db data

/-- The applications `store` endpoint as invoked by a caller acting for a
given owner; `request.only` drops the owner identifier. -/
def applications_store_withOwner (_ownerId : String) (db : List ApplicationRow)
    (data : NewApplicationData) : Nat × List ApplicationRow :=
  applications_store db data

/-- `Response.ok` of the fetch API: status in the 2xx range. -/
def response_ok (status : Nat) : Bool :=
  200 ≤ status && status < 300

/-- Error message prefix thrown by the renderer API client. -/
def apiRequestFailedMsg : String :=
  "API request failed"

/-- The renderer API client `request` helper: if `!response.ok` it throws,
otherwise it resolves with the body. A 409 duplicate response is therefore
surfaced to the caller as a thrown error. -/
def clientRequest {α : Type} (status : Nat) (body : α) : Except String α :=
  if response_ok status then Except.ok body else Except.error apiRequestFailedMsg

/-! ## Relevance filter (`src/main/ollama.ts`) -/

/-- Result of a relevance check: `{ relevant: boolean, score: number }`.
Scores produced by the code are integers (`Math.round` output or the `-1`
sentinel). -/
structure RelevanceResult where
  relevant : Bool
  score : Int
deriving DecidableEq

/-- Outcome of the `ollama.embed` call: the promise either resolves with the
first returned embedding (`response.embeddings[0]`) or rejects. -/
inductive ProviderError where
  | unreachable
deriving DecidableEq

/-- `MAX_CACHE_SIZE = 100`. -/
def MAX_CACHE_SIZE : Nat := 100

/-- The in-memory `jobTitleCache`, a JS `Map` from cache key to relevance
result, modelled as an association list in insertion order (JS `Map`s
iterate in insertion order). -/
abbrev TitleCache := List (String × RelevanceResult)

/-- `jobTitleCache.get(key)` (with `has` being `isSome` of this). -/
def cacheGet (cache : TitleCache) (key : String) : Option RelevanceResult :=
  (cache.find? (fun e => e.1 == key)).map (fun e => e.2)

/-- `jobTitleCache.set(key, value)`: JS `Map.set` overwrites in place when
the key is present and appends a new last entry otherwise. -/
def cacheSet (cache : TitleCache) (key : String) (value : RelevanceResult) :
    TitleCache :=
  if cache.any (fun e => e.1 == key) then
    cache.map (fun e => if e.1 == key then (key, value) else e)
  else cache ++ [(key, value)]

/-- Evicting the oldest entry: `jobTitleCache.keys().next().value` is the
first inserted key and `delete` removes its entry, i.e. the head of the
list. (The guard `if (firstKey)` only fails on an empty map, where `tail`
is also the identity; cache keys always contain a `|` so they are never the
empty string.) -/
def cacheEvictOldest (cache : TitleCache) : TitleCache :=
  cache.tail

/-- The Stage-1 cache key: `` `${jobTitle.trim()}|${userProfileEmbedding.length}` ``. -/
def titleCacheKey (jobTitle : String) (userProfileEmbedding : List ℝ) : String :=
  jobTitle.trim ++ "|" ++ toString userProfileEmbedding.length

noncomputable section

/-- `TITLE_THRESHOLD = 0.45`. -/
def TITLE_THRESHOLD : ℝ := 0.45

/-- `DESCRIPTION_THRESHOLD = 0.45`. -/
def DESCRIPTION_THRESHOLD : ℝ := 0.45

/-- The dot product `vecA.reduce((sum, a, i) => sum + a * vecB[i], 0)`:
the sum over the indices of `vecA` of `vecA[i] * vecB[i]`. -/
def dotProduct (vecA vecB : List ℝ) : ℝ :=
  ∑ i ∈ Finset.range vecA.length, vecA.getD i 0 * vecB.getD i 0

/-- `Math.sqrt(v.reduce((sum, a) => sum + a * a, 0))`, the Euclidean
magnitude of a vector. -/
def magnitude (v : List ℝ) : ℝ :=
  Real.sqrt (∑ i ∈ Finset.range v.length, v.getD i 0 * v.getD i 0)

/-- `cosineSimilarity(vecA, vecB)` from `src/main/ollama.ts`: dot product
over product of magnitudes, with an early `return 0` when either magnitude
is zero. -/
def cosineSimilarity (vecA vecB : List ℝ) : ℝ :=
  if magnitude vecA = 0 ∨ magnitude vecB = 0 then 0
  else dotProduct vecA vecB / (magnitude vecA * magnitude vecB)

/-- `getEmbedding(text)`: on a resolved provider call it returns
`response.embeddings[0]`; the `catch` block swallows any rejection and
returns the empty array as a normal value, so the returned promise never
rejects. -/
def getEmbedding (providerResult : Except ProviderError (List ℝ)) :
    Except ProviderError (List ℝ) :=
  match providerResult with
  | Except.ok embedding => Except.ok embedding
  | Except.error _ => Except.ok []

/-- JS `Math.round`: round half away from zero upwards, i.e. `⌊x + 1/2⌋`. -/
def jsRound (x : ℝ) : ℤ :=
  ⌊x + 1 / 2⌋

/-- The `result` object `{ relevant: similarity >= threshold,
score: Math.round(similarity * 100) }` built by both stages. -/
def relevanceResultOf (threshold : ℝ) (textEmbedding userProfileEmbedding : List ℝ) :
    RelevanceResult :=
  { relevant := if threshold ≤ cosineSimilarity textEmbedding userProfileEmbedding
      then true else false
    score := jsRound (cosineSimilarity textEmbedding userProfileEmbedding * 100) }

/-- Stage 1, `isJobTitleRelevant(jobTitle, userProfileEmbedding)`.
Inputs: the cache at call time and the provider outcome this call would see.
Output: the returned result, the cache after the call, and whether the
embedding provider was consulted. Paths, in source order: cache hit returns
the cached result; failed or empty embeddings return the `-1` sentinel
without touching the cache; otherwise the computed result is cached (with
FIFO eviction of the oldest entry when the cache is full) and returned. -/
def isJobTitleRelevant (cache : TitleCache) (jobTitle : String)
    (providerResult : Except ProviderError (List ℝ))
    (userProfileEmbedding : List ℝ) :
    RelevanceResult × TitleCache × Bool :=
  match cacheGet cache (titleCacheKey jobTitle userProfileEmbedding) with
  | some cached => (cached, cache, false)
  | none =>
    match getEmbedding providerResult with
    | Except.error _ => ({ relevant := true, score := -1 }, cache, true)
    | Except.ok titleEmbedding =>
      if titleEmbedding.length = 0 ∨ userProfileEmbedding.length = 0 then
        ({ relevant := true, score := -1 }, cache, true)
      else
        (relevanceResultOf TITLE_THRESHOLD titleEmbedding userProfileEmbedding,
         cacheSet
           (if MAX_CACHE_SIZE ≤ cache.length then cacheEvictOldest cache else cache)
           (titleCacheKey jobTitle userProfileEmbedding)
           (relevanceResultOf TITLE_THRESHOLD titleEmbedding userProfileEmbedding),
         true)

/-- Stage 2, `isJobRelevant(jobDescription, userProfileEmbedding)`: no
cache; failed or empty embeddings return the `-1` sentinel, otherwise the
computed result. -/
def isJobRelevant (providerResult : Except ProviderError (List ℝ))
    (userProfileEmbedding : List ℝ) : RelevanceResult :=
  match getEmbedding providerResult with
  | Except.error _ => { relevant := true, score := -1 }
  | Except.ok descriptionEmbedding =>
    if descriptionEmbedding.length = 0 ∨ userProfileEmbedding.length = 0 then
      { relevant := true, score := -1 }
    else
      relevanceResultOf DESCRIPTION_THRESHOLD descriptionEmbedding userProfileEmbedding

/-- The Similarity Scorer as the spec words it (§4.1): the standard cosine
`dot(a,b) / (|a| * |b|)` of the two vectors — element-wise product summed
over the paired entries, magnitudes as root of summed squares — returning
`0` instead of failing when either magnitude is zero. Stated independently
of the source's index-based loop, to be compared with `cosineSimilarity`. -/
def spec_cosineSimilarity (a b : List ℝ) : ℝ :=
  if Real.sqrt ((a.map fun x => x * x).sum) = 0 ∨
      Real.sqrt ((b.map fun x => x * x).sum) = 0 then 0
  else
    ((a.zip b).map fun p => p.1 * p.2).sum /
      (Real.sqrt ((a.map fun x => x * x).sum) * Real.sqrt ((b.map fun x => x * x).sum))

end

/-! ## Concrete inputs used by counterexamples and witnesses -/

/-- A job URL used in concrete scenarios. -/
def jobUrlJ : String := "https://www.workatastartup.com/jobs/1"

/-- A company URL used in concrete scenarios. -/
def companyUrlU : String := "https://www.workatastartup.com/companies/acme"

/-- A first owner identity supplied by a caller. -/
def ownerAlice : String := "alice"

/-- A second, distinct owner identity supplied by a caller. -/
def ownerBob : String := "bob"

/-- A concrete application-creation request for `jobUrlJ`. -/
def appDataJ : NewApplicationData :=
  { jobTitle := "Engineer", companyName := "Acme", jobUrl := jobUrlJ,
    coverLetter := "hello", status := none, matchScore := none }

/-- The application row `store` creates from `appDataJ`. -/
def appRowJ : ApplicationRow :=
  { jobTitle := "Engineer", companyName := "Acme", jobUrl := jobUrlJ,
    coverLetter := "hello", status := "submitted", matchScore := none }

/-- A concrete company-creation request for `companyUrlU`. -/
def companyDataU : NewCompanyData :=
  { url := companyUrlU, name := "Acme", status := none }

/-- The company row `store` creates from `companyDataU`. -/
def companyRowU : CompanyRow :=
  { url := companyUrlU, name := "Acme", status := "visited" }

/-- A concrete job title used in relevance-filter scenarios. -/
def titleT : String := "Engineer"

/-! ## Helper lemmas: vector arithmetic -/

lemma sum_getD_mul_self_nonneg (v : List ℝ) (n : ℕ) :
    0 ≤ ∑ i ∈ Finset.range n, v.getD i 0 * v.getD i 0 :=
  Finset.sum_nonneg fun _ _ => mul_self_nonneg _

lemma magnitude_nonneg (v : List ℝ) : 0 ≤ magnitude v :=
  Real.sqrt_nonneg _

lemma magnitude_mul_self (v : List ℝ) :
    magnitude v * magnitude v =
      ∑ i ∈ Finset.range v.length, v.getD i 0 * v.getD i 0 :=
  Real.mul_self_sqrt (sum_getD_mul_self_nonneg v v.length)

lemma sum_getD_mul_self_mono (b : List ℝ) (n : ℕ) :
    ∑ i ∈ Finset.range n, b.getD i 0 * b.getD i 0 ≤
      ∑ i ∈ Finset.range b.length, b.getD i 0 * b.getD i 0 := by
  rcases le_total n b.length with h | h
  · exact Finset.sum_le_sum_of_subset_of_nonneg (Finset.range_subset.2 h)
      fun i _ _ => mul_self_nonneg _
  · refine le_of_eq (Finset.sum_subset (Finset.range_subset.2 h) ?_).symm
    intro i _ hi
    have hlen : b.length ≤ i := le_of_not_lt (fun hc => hi (Finset.mem_range.2 hc))
    rw [List.getD_eq_default _ _ hlen, mul_zero]

lemma dotProduct_sq_le (a b : List ℝ) :
    dotProduct a b ^ 2 ≤
      (∑ i ∈ Finset.range a.length, a.getD i 0 * a.getD i 0) *
        ∑ i ∈ Finset.range b.length, b.getD i 0 * b.getD i 0 := by
  have hcs := Finset.sum_mul_sq_le_sq_mul_sq (Finset.range a.length)
    (fun i => a.getD i 0) (fun i => b.getD i 0)
  have hsq : ∀ v : List ℝ, ∀ n, ∑ i ∈ Finset.range n, v.getD i 0 ^ 2 =
      ∑ i ∈ Finset.range n, v.getD i 0 * v.getD i 0 := by
    intro v n
    exact Finset.sum_congr rfl fun i _ => sq (v.getD i 0) ▸ rfl
  calc dotProduct a b ^ 2
      ≤ (∑ i ∈ Finset.range a.length, a.getD i 0 ^ 2) *
          ∑ i ∈ Finset.range a.length, b.getD i 0 ^ 2 := hcs
    _ = (∑ i ∈ Finset.range a.length, a.getD i 0 * a.getD i 0) *
          ∑ i ∈ Finset.range a.length, b.getD i 0 * b.getD i 0 := by
        rw [hsq a, hsq b]
    _ ≤ (∑ i ∈ Finset.range a.length, a.getD i 0 * a.getD i 0) *
          ∑ i ∈ Finset.range b.length, b.getD i 0 * b.getD i 0 :=
        mul_le_mul_of_nonneg_left (sum_getD_mul_self_mono b a.length)
          (sum_getD_mul_self_nonneg a a.length)

lemma abs_dotProduct_le (a b : List ℝ) :
    |dotProduct a b| ≤ magnitude a * magnitude b := by
  have h1 : |dotProduct a b| = Real.sqrt (dotProduct a b ^ 2) :=
    (Real.sqrt_sq_eq_abs (dotProduct a b)).symm
  rw [h1, magnitude, magnitude, ← Real.sqrt_mul (sum_getD_mul_self_nonneg a a.length)]
  exact Real.sqrt_le_sqrt (dotProduct_sq_le a b)

lemma abs_cosineSimilarity_le_one (a b : List ℝ) :
    |cosineSimilarity a b| ≤ 1 := by
  unfold cosineSimilarity
  split_ifs with h
  · simp
  · push_neg at h
    have ha : 0 < magnitude a := lt_of_le_of_ne (magnitude_nonneg a) (Ne.symm h.1)
    have hb : 0 < magnitude b := lt_of_le_of_ne (magnitude_nonneg b) (Ne.symm h.2)
    have hab : 0 < magnitude a * magnitude b := mul_pos ha hb
    rw [abs_div, abs_of_pos hab, div_le_one hab]
    exact abs_dotProduct_le a b

lemma cosineSimilarity_le_one (a b : List ℝ) : cosineSimilarity a b ≤ 1 :=
  (abs_le.mp (abs_cosineSimilarity_le_one a b)).2

lemma neg_one_le_cosineSimilarity (a b : List ℝ) : -1 ≤ cosineSimilarity a b :=
  (abs_le.mp (abs_cosineSimilarity_le_one a b)).1

lemma dotProduct_comm (a b : List ℝ) (h : a.length = b.length) :
    dotProduct a b = dotProduct b a := by
  unfold dotProduct
  rw [h]
  exact Finset.sum_congr rfl fun i _ => mul_comm _ _

lemma sum_getD_mul_eq_zip (a b : List ℝ) (h : a.length = b.length) :
    ∑ i ∈ Finset.range a.length, a.getD i 0 * b.getD i 0 =
      ((a.zip b).map fun p => p.1 * p.2).sum := by
  induction a generalizing b with
  | nil => simp
  | cons x xs ih =>
    cases b with
    | nil => simp at h
    | cons y ys =>
      have hlen : xs.length = ys.length := by simpa using h
      rw [List.zip_cons_cons, List.map_cons, List.sum_cons, ← ih ys hlen]
      rw [List.length_cons, Finset.sum_range_succ']
      simp [add_comm]

lemma sum_getD_mul_self_eq_map (v : List ℝ) :
    ∑ i ∈ Finset.range v.length, v.getD i 0 * v.getD i 0 =
      (v.map fun x => x * x).sum := by
  induction v with
  | nil => simp
  | cons x xs ih =>
    rw [List.map_cons, List.sum_cons, ← ih, List.length_cons, Finset.sum_range_succ']
    simp [add_comm]

lemma magnitude_eq_map (v : List ℝ) :
    magnitude v = Real.sqrt ((v.map fun x => x * x).sum) := by
  rw [magnitude, sum_getD_mul_self_eq_map]

/-! ## Helper lemmas: the in-memory title cache -/

lemma cacheFind_eq_none (c : TitleCache) (k : String) (h : cacheGet c k = none) :
    c.find? (fun e => e.1 == k) = none := by
  unfold cacheGet at h
  exact Option.map_eq_none'.mp h

lemma cacheAny_eq_false (c : TitleCache) (k : String) (h : cacheGet c k = none) :
    c.any (fun e => e.1 == k) = false := by
  have hf := cacheFind_eq_none c k h
  rw [List.find?_eq_none] at hf
  rw [List.any_eq_false]
  exact hf

lemma cacheSet_of_get_none (c : TitleCache) (k : String) (v : RelevanceResult)
    (h : cacheGet c k = none) : cacheSet c k v = c ++ [(k, v)] := by
  unfold cacheSet
  rw [cacheAny_eq_false c k h]
  simp

lemma cacheGet_append_single (c : TitleCache) (k : String) (v : RelevanceResult)
    (h : cacheGet c k = none) : cacheGet (c ++ [(k, v)]) k = some v := by
  unfold cacheGet
  rw [List.find?_append, cacheFind_eq_none c k h]
  simp [List.find?]

lemma cacheGet_tail_none (c : TitleCache) (k : String) (h : cacheGet c k = none) :
    cacheGet c.tail k = none := by
  have hf := cacheFind_eq_none c k h
  rw [List.find?_eq_none] at hf
  unfold cacheGet
  rw [List.find?_eq_none.mpr fun x hx => hf x (List.mem_of_mem_tail hx)]
  rfl

/-! ## Helper lemmas: concrete evaluations -/

lemma magnitude_single (x : ℝ) : magnitude [x] = Real.sqrt (x * x) := by
  simp [magnitude, Finset.sum_range_one]

lemma magnitude_pair (x y : ℝ) : magnitude [x, y] = Real.sqrt (x * x + y * y) := by
  simp [magnitude, Finset.sum_range_succ, Finset.sum_range_zero]

lemma dotProduct_single (x y : ℝ) : dotProduct [x] [y] = x * y := by
  simp [dotProduct, Finset.sum_range_one]

lemma dotProduct_pair (x y z w : ℝ) : dotProduct [x, y] [z, w] = x * z + y * w := by
  simp [dotProduct, Finset.sum_range_succ, Finset.sum_range_zero]

lemma cos_one_one : cosineSimilarity [(1 : ℝ)] [(1 : ℝ)] = 1 := by
  have h1 : magnitude [(1 : ℝ)] = 1 := by
    rw [magnitude_single]; norm_num [Real.sqrt_eq_one]
  unfold cosineSimilarity
  rw [h1, dotProduct_single]
  norm_num

lemma cos_one_negone : cosineSimilarity [(1 : ℝ)] [(-1 : ℝ)] = -1 := by
  have h1 : magnitude [(1 : ℝ)] = 1 := by
    rw [magnitude_single]; norm_num [Real.sqrt_eq_one]
  have h2 : magnitude [(-1 : ℝ)] = 1 := by
    rw [magnitude_single]; norm_num [Real.sqrt_eq_one]
  unfold cosineSimilarity
  rw [h1, h2, dotProduct_single]
  norm_num

lemma cos_scenarioA :
    cosineSimilarity [(1 : ℝ), 0] [(4 / 5 : ℝ), 3 / 5] = 4 / 5 := by
  have h1 : magnitude [(1 : ℝ), 0] = 1 := by
    rw [magnitude_pair]; norm_num [Real.sqrt_eq_one]
  have h2 : magnitude [(4 / 5 : ℝ), 3 / 5] = 1 := by
    rw [magnitude_pair]; norm_num [Real.sqrt_eq_one]
  unfold cosineSimilarity
  rw [h1, h2, dotProduct_pair]
  norm_num

/-! ## Helper lemmas: evaluation of the two stages -/

lemma stage1_hit (cache : TitleCache) (title : String)
    (pr : Except ProviderError (List ℝ)) (profile : List ℝ) (r : RelevanceResult)
    (h : cacheGet cache (titleCacheKey title profile) = some r) :
    isJobTitleRelevant cache title pr profile = (r, cache, false) := by
  unfold isJobTitleRelevant
  rw [h]

lemma stage1_error (cache : TitleCache) (title : String) (e : ProviderError)
    (profile : List ℝ)
    (h : cacheGet cache (titleCacheKey title profile) = none) :
    isJobTitleRelevant cache title (Except.error e) profile =
      ({ relevant := true, score := -1 }, cache, true) := by
  unfold isJobTitleRelevant
  rw [h]
  simp [getEmbedding]

lemma stage1_empty_emb (cache : TitleCache) (title : String) (profile : List ℝ)
    (h : cacheGet cache (titleCacheKey title profile) = none) :
    isJobTitleRelevant cache title (Except.ok []) profile =
      ({ relevant := true, score := -1 }, cache, true) := by
  unfold isJobTitleRelevant
  rw [h]
  simp [getEmbedding]

lemma stage1_compute (cache : TitleCache) (title : String) (emb profile : List ℝ)
    (hmiss : cacheGet cache (titleCacheKey title profile) = none)
    (hemb : emb.length ≠ 0) (hprof : profile.length ≠ 0) :
    isJobTitleRelevant cache title (Except.ok emb) profile =
      (relevanceResultOf TITLE_THRESHOLD emb profile,
       (if MAX_CACHE_SIZE ≤ cache.length then cacheEvictOldest cache else cache) ++
         [(titleCacheKey title profile, relevanceResultOf TITLE_THRESHOLD emb profile)],
       true) := by
  have h1 : cacheGet
      (if MAX_CACHE_SIZE ≤ cache.length then cacheEvictOldest cache else cache)
      (titleCacheKey title profile) = none := by
    split_ifs
    · exact cacheGet_tail_none cache _ hmiss
    · exact hmiss
  unfold isJobTitleRelevant
  rw [hmiss]
  simp only [getEmbedding]
  rw [if_neg (not_or.mpr ⟨hemb, hprof⟩), cacheSet_of_get_none _ _ _ h1]

lemma stage1_sentinel_lengths (cache : TitleCache) (title : String)
    (emb profile : List ℝ)
    (hmiss : cacheGet cache (titleCacheKey title profile) = none)
    (hel : emb.length = 0 ∨ profile.length = 0) :
    isJobTitleRelevant cache title (Except.ok emb) profile =
      ({ relevant := true, score := -1 }, cache, true) := by
  unfold isJobTitleRelevant
  rw [hmiss]
  simp only [getEmbedding]
  rw [if_pos hel]

lemma stage2_error (e : ProviderError) (profile : List ℝ) :
    isJobRelevant (Except.error e) profile = { relevant := true, score := -1 } := by
  simp [isJobRelevant, getEmbedding]

lemma stage2_empty_emb (profile : List ℝ) :
    isJobRelevant (Except.ok []) profile = { relevant := true, score := -1 } := by
  simp [isJobRelevant, getEmbedding]

lemma stage2_compute (emb profile : List ℝ)
    (hemb : emb.length ≠ 0) (hprof : profile.length ≠ 0) :
    isJobRelevant (Except.ok emb) profile =
      relevanceResultOf DESCRIPTION_THRESHOLD emb profile := by
  unfold isJobRelevant
  simp only [getEmbedding]
  rw [if_neg (not_or.mpr ⟨hemb, hprof⟩)]

/-! ## Claim theorems -/

/-- C1, counterexample: a write whose unique key already exists does NOT
complete as a success. At a concrete duplicate input the applications
`store` responds 409 (leaving the table unchanged), the companies `store`
responds 409 as well, and the renderer API client turns the 409 into a
thrown error — so the duplicate-key outcome IS surfaced to the caller. -/
theorem C1_counterexample :
    (applications_store [appRowJ] appDataJ).1 = 409 ∧
    (applications_store [appRowJ] appDataJ).2 = [appRowJ] ∧
    clientRequest (applications_store [appRowJ] appDataJ).1 appDataJ.jobUrl =
      Except.error apiRequestFailedMsg ∧
    (companies_store [companyRowU] companyDataU).1 = 409 := by
  refine ⟨rfl, rfl, rfl, rfl⟩

/-- C1, amended: for every attempt to write a Company Record or an
Application Record whose unique key already exists, `store` responds
409 Conflict and performs no write, and the API client surfaces the 409 to
its caller as a thrown error (it is not treated as a success). -/
theorem C1_amended_conflict
    (dbA : List ApplicationRow) (dA : NewApplicationData)
    (dbC : List CompanyRow) (dC : NewCompanyData)
    (hA : (application_findUnique dbA dA.jobUrl).isSome = true)
    (hC : (company_findUnique dbC dC.url).isSome = true) :
    (applications_store dbA dA).1 = 409 ∧
    (applications_store dbA dA).2 = dbA ∧
    (companies_store dbC dC).1 = 409 ∧
    (companies_store dbC dC).2 = dbC ∧
    (∀ (α : Type) (body : α),
      clientRequest (applications_store dbA dA).1 body =
        Except.error apiRequestFailedMsg) := by
  obtain ⟨a, ha⟩ := Option.isSome_iff_exists.mp hA
  obtain ⟨c, hc⟩ := Option.isSome_iff_exists.mp hC
  unfold applications_store companies_store
  rw [ha, hc]
  exact ⟨rfl, rfl, rfl, rfl, fun α body => rfl⟩

/-- C1, witness for `C1_amended_conflict` at a concrete duplicate input. -/
theorem C1_witness :
    (application_findUnique [appRowJ] appDataJ.jobUrl).isSome = true ∧
    (company_findUnique [companyRowU] companyDataU.url).isSome = true ∧
    ((applications_store [appRowJ] appDataJ).1 = 409 ∧
     (applications_store [appRowJ] appDataJ).2 = [appRowJ] ∧
     (companies_store [companyRowU] companyDataU).1 = 409 ∧
     (companies_store [companyRowU] companyDataU).2 = [companyRowU] ∧
     (∀ (α : Type) (body : α),
       clientRequest (applications_store [appRowJ] appDataJ).1 body =
         Except.error apiRequestFailedMsg)) :=
  ⟨by decide, by decide,
   C1_amended_conflict [appRowJ] appDataJ [companyRowU] companyDataU
     (by decide) (by decide)⟩

/-- C2: the claim says dedup is scoped by the caller-supplied owner, so two
distinct owners can each hold a record for the same url/jobUrl. The
controllers, however, check and key existence by `url`/`jobUrl` alone and
`request.only` discards any owner identifier, so after owner `alice`
stores a record (201), the same write by the distinct owner `bob` is
reported as already present (409) for both tables — contradicting the
repository's own README ("per-user unique job URL") and the
`20260215175720_add_pgvector` migration's `(userId, url)` / `(userId,
jobUrl)` unique indexes. The final conjunct records that the store result
is entirely independent of the owner. -/
theorem C2_owner_scoping_bug :
    ownerAlice ≠ ownerBob ∧
    (applications_store_withOwner ownerAlice [] appDataJ).1 = 201 ∧
    (applications_store_withOwner ownerBob
        (applications_store_withOwner ownerAlice [] appDataJ).2 appDataJ).1 = 409 ∧
    (companies_store_withOwner ownerAlice [] companyDataU).1 = 201 ∧
    (companies_store_withOwner ownerBob
        (companies_store_withOwner ownerAlice [] companyDataU).2 companyDataU).1 = 409 ∧
    (∀ (o1 o2 : String) (db : List ApplicationRow) (data : NewApplicationData),
      applications_store_withOwner o1 db data =
        applications_store_withOwner o2 db data) := by
  exact ⟨by decide, by decide, by decide, by decide, by decide,
    fun o1 o2 db data => rfl⟩

/-- C4, counterexample: when the provider call fails, `getEmbedding` does
NOT propagate the failure — it resolves normally with the empty array.
No failure input ever produces a rejected result. -/
theorem C4_counterexample :
    getEmbedding (Except.error ProviderError.unreachable) = Except.ok [] ∧
    ∀ e err : ProviderError,
      getEmbedding (Except.error e) ≠ Except.error err := by
  refine ⟨rfl, ?_⟩
  intro e err h
  cases e
  exact Except.noConfusion h

/-- C4, amended: on provider failure `getEmbedding` swallows the error and
returns the empty vector as a normal value (on success it returns the
embedding unchanged); callers detect the failure by checking for the empty
array and decide the fail-open policy themselves. -/
theorem C4_amended_swallow (e : ProviderError) (v : List ℝ) :
    getEmbedding (Except.error e) = Except.ok [] ∧
    getEmbedding (Except.ok v) = Except.ok v := by
  cases e
  exact ⟨rfl, rfl⟩

/-- C5: if the embedding provider cannot be reached (the call rejects or
yields no embedding) during Stage 1 (on a cache miss) or Stage 2, that
stage returns `relevant = true` with sentinel score `-1`; in particular
when the provider rejects for both stages, both return
`{relevant := true, score := -1}`. -/
theorem C5_fail_open (cache : TitleCache) (title : String) (profile : List ℝ)
    (e1 e2 : ProviderError)
    (hmiss : cacheGet cache (titleCacheKey title profile) = none) :
    (isJobTitleRelevant cache title (Except.error e1) profile).1 =
      { relevant := true, score := -1 } ∧
    (isJobTitleRelevant cache title (Except.ok []) profile).1 =
      { relevant := true, score := -1 } ∧
    isJobRelevant (Except.error e2) profile = { relevant := true, score := -1 } ∧
    isJobRelevant (Except.ok []) profile = { relevant := true, score := -1 } := by
  refine ⟨?_, ?_, stage2_error e2 profile, stage2_empty_emb profile⟩
  · rw [stage1_error cache title e1 profile hmiss]
  · rw [stage1_empty_emb cache title profile hmiss]

/-- C5, witness: both stages at a concrete cold cache and failing provider. -/
theorem C5_witness :
    cacheGet [] (titleCacheKey titleT [(1 : ℝ)]) = none ∧
    ((isJobTitleRelevant [] titleT
        (Except.error ProviderError.unreachable) [(1 : ℝ)]).1 =
      { relevant := true, score := -1 } ∧
     (isJobTitleRelevant [] titleT (Except.ok []) [(1 : ℝ)]).1 =
      { relevant := true, score := -1 } ∧
     isJobRelevant (Except.error ProviderError.unreachable) [(1 : ℝ)] =
      { relevant := true, score := -1 } ∧
     isJobRelevant (Except.ok []) [(1 : ℝ)] =
      { relevant := true, score := -1 }) :=
  ⟨rfl, C5_fail_open [] titleT [(1 : ℝ)]
    ProviderError.unreachable ProviderError.unreachable rfl⟩

/-- C6: on a cache miss with both embeddings non-empty, Stage 1 classifies
the title as relevant exactly when the cosine similarity of the title
embedding and the profile embedding is at least `TITLE_THRESHOLD`, which
is 0.45. -/
theorem C6_stage1_threshold (cache : TitleCache) (title : String)
    (emb profile : List ℝ)
    (hmiss : cacheGet cache (titleCacheKey title profile) = none)
    (hemb : emb.length ≠ 0) (hprof : profile.length ≠ 0) :
    TITLE_THRESHOLD = 0.45 ∧
    ((isJobTitleRelevant cache title (Except.ok emb) profile).1.relevant = true ↔
      TITLE_THRESHOLD ≤ cosineSimilarity emb profile) := by
  refine ⟨rfl, ?_⟩
  rw [stage1_compute cache title emb profile hmiss hemb hprof]
  by_cases h : TITLE_THRESHOLD ≤ cosineSimilarity emb profile
  · simp [relevanceResultOf, h]
  · simp [relevanceResultOf, h]

/-- C6, witness (Scenario A): title embedding `[1, 0]` against profile
embedding `[4/5, 3/5]` has cosine similarity 0.80, and Stage 1 marks it
relevant. -/
theorem C6_witness :
    cacheGet [] (titleCacheKey titleT [(4 / 5 : ℝ), 3 / 5]) = none ∧
    ([(1 : ℝ), 0].length ≠ 0) ∧ ([(4 / 5 : ℝ), 3 / 5].length ≠ 0) ∧
    cosineSimilarity [(1 : ℝ), 0] [(4 / 5 : ℝ), 3 / 5] = 4 / 5 ∧
    (isJobTitleRelevant [] titleT
      (Except.ok [(1 : ℝ), 0]) [(4 / 5 : ℝ), 3 / 5]).1.relevant = true := by
  have h := C6_stage1_threshold [] titleT [(1 : ℝ), 0] [(4 / 5 : ℝ), 3 / 5]
    rfl (by norm_num) (by norm_num)
  exact ⟨rfl, by norm_num, by norm_num, cos_scenarioA,
    h.2.mpr (by norm_num [TITLE_THRESHOLD, cos_scenarioA])⟩

/-- C7: for equal-length vectors, `cosineSimilarity` equals the standard
cosine formula as the spec words it (`spec_cosineSimilarity`); it returns 0
when either magnitude is zero, otherwise it is exactly the dot product
divided by the product of magnitudes (stated multiplicatively, so no
division by zero is involved); it is total and its value always lies in
`[-1, 1]`. -/
theorem C7_cosine_spec (a b : List ℝ) (h : a.length = b.length) :
    cosineSimilarity a b = spec_cosineSimilarity a b ∧
    (magnitude a = 0 ∨ magnitude b = 0 → cosineSimilarity a b = 0) ∧
    (magnitude a ≠ 0 → magnitude b ≠ 0 →
      cosineSimilarity a b * (magnitude a * magnitude b) = dotProduct a b) ∧
    -1 ≤ cosineSimilarity a b ∧ cosineSimilarity a b ≤ 1 := by
  refine ⟨?_, ?_, ?_, neg_one_le_cosineSimilarity a b, cosineSimilarity_le_one a b⟩
  · have hzip : dotProduct a b = ((a.zip b).map fun p => p.1 * p.2).sum :=
      sum_getD_mul_eq_zip a b h
    unfold cosineSimilarity spec_cosineSimilarity
    rw [← magnitude_eq_map a, ← magnitude_eq_map b, ← hzip]
  · intro h0
    unfold cosineSimilarity
    rw [if_pos h0]
  · intro ha hb
    unfold cosineSimilarity
    rw [if_neg (not_or.mpr ⟨ha, hb⟩)]
    exact div_mul_cancel₀ _ (mul_ne_zero ha hb)

/-- C7, witness at the concrete equal-length pair `[1, 2]`, `[3, 4]`. -/
theorem C7_witness :
    ([(1 : ℝ), 2].length = [(3 : ℝ), 4].length) ∧
    (cosineSimilarity [(1 : ℝ), 2] [(3 : ℝ), 4] =
       spec_cosineSimilarity [(1 : ℝ), 2] [(3 : ℝ), 4] ∧
     (magnitude [(1 : ℝ), 2] = 0 ∨ magnitude [(3 : ℝ), 4] = 0 →
       cosineSimilarity [(1 : ℝ), 2] [(3 : ℝ), 4] = 0) ∧
     (magnitude [(1 : ℝ), 2] ≠ 0 → magnitude [(3 : ℝ), 4] ≠ 0 →
       cosineSimilarity [(1 : ℝ), 2] [(3 : ℝ), 4] *
         (magnitude [(1 : ℝ), 2] * magnitude [(3 : ℝ), 4]) =
         dotProduct [(1 : ℝ), 2] [(3 : ℝ), 4]) ∧
     -1 ≤ cosineSimilarity [(1 : ℝ), 2] [(3 : ℝ), 4] ∧
     cosineSimilarity [(1 : ℝ), 2] [(3 : ℝ), 4] ≤ 1) :=
  ⟨rfl, C7_cosine_spec [(1 : ℝ), 2] [(3 : ℝ), 4] rfl⟩

/-- C9: `cosineSimilarity` is symmetric on equal-length vectors. -/
theorem C9_cosine_comm (a b : List ℝ) (h : a.length = b.length) :
    cosineSimilarity a b = cosineSimilarity b a := by
  unfold cosineSimilarity
  rw [dotProduct_comm a b h]
  by_cases h1 : magnitude a = 0 ∨ magnitude b = 0
  · rw [if_pos h1, if_pos h1.symm]
  · rw [if_neg h1, if_neg fun hc => h1 hc.symm,
      mul_comm (magnitude b) (magnitude a)]

/-- C9, witness at the concrete equal-length pair `[5, 6]`, `[7, 8]`. -/
theorem C9_witness :
    ([(5 : ℝ), 6].length = [(7 : ℝ), 8].length) ∧
    cosineSimilarity [(5 : ℝ), 6] [(7 : ℝ), 8] =
      cosineSimilarity [(7 : ℝ), 8] [(5 : ℝ), 6] :=
  ⟨rfl, C9_cosine_comm [(5 : ℝ), 6] [(7 : ℝ), 8] rfl⟩

/-- C3, counterexample: with provider embedding `[1]` against profile
embedding `[-1]` the cosine similarity is `-1`, so Stage 2 returns score
`Math.round(-1 * 100) = -100`, which is neither in `[0, 100]` nor the
sentinel `-1`: the claimed score range is violated. -/
theorem C3_counterexample :
    isJobRelevant (Except.ok [(1 : ℝ)]) [(-1 : ℝ)] =
      { relevant := false, score := -100 } ∧
    ¬((0 : ℤ) ≤ -100) ∧ ((-100 : ℤ) ≠ -1) := by
  refine ⟨?_, by norm_num, by norm_num⟩
  rw [stage2_compute [(1 : ℝ)] [(-1 : ℝ)] (by norm_num) (by norm_num)]
  unfold relevanceResultOf
  rw [cos_one_negone]
  rw [RelevanceResult.mk.injEq]
  constructor
  · rw [if_neg (by norm_num [DESCRIPTION_THRESHOLD])]
  · unfold jsRound
    norm_num

/-- C3, amended: in the non-sentinel case both stages return exactly
`Math.round(similarity * 100)`, an integer in `[-100, 100]` (and in
`[0, 100]` whenever the similarity is nonnegative, which holds for the
embedding models in use); in the sentinel case the score is exactly `-1`. -/
theorem C3_amended_score (cache : TitleCache) (title : String)
    (emb profile : List ℝ) (e : ProviderError)
    (hmiss : cacheGet cache (titleCacheKey title profile) = none)
    (hemb : emb.length ≠ 0) (hprof : profile.length ≠ 0) :
    (isJobTitleRelevant cache title (Except.ok emb) profile).1.score =
      jsRound (cosineSimilarity emb profile * 100) ∧
    (isJobTitleRelevant cache title (Except.error e) profile).1.score = -1 ∧
    (isJobRelevant (Except.ok emb) profile).score =
      jsRound (cosineSimilarity emb profile * 100) ∧
    (isJobRelevant (Except.error e) profile).score = -1 ∧
    -100 ≤ jsRound (cosineSimilarity emb profile * 100) ∧
    jsRound (cosineSimilarity emb profile * 100) ≤ 100 ∧
    (0 ≤ cosineSimilarity emb profile →
      0 ≤ jsRound (cosineSimilarity emb profile * 100)) := by
  have hs1 : -1 ≤ cosineSimilarity emb profile := neg_one_le_cosineSimilarity emb profile
  have hs2 : cosineSimilarity emb profile ≤ 1 := cosineSimilarity_le_one emb profile
  refine ⟨?_, ?_, ?_, ?_, ?_, ?_, ?_⟩
  · rw [stage1_compute cache title emb profile hmiss hemb hprof]
    rfl
  · rw [stage1_error cache title e profile hmiss]
  · rw [stage2_compute emb profile hemb hprof]
    rfl
  · rw [stage2_error e profile]
  · unfold jsRound
    rw [Int.le_floor]
    push_cast
    linarith
  · unfold jsRound
    rw [Int.floor_le_iff]
    push_cast
    linarith
  · intro h0
    unfold jsRound
    rw [Int.le_floor]
    push_cast
    linarith [mul_nonneg h0 (by norm_num : (0 : ℝ) ≤ 100)]

/-- C3, witness for `C3_amended_score` at the cold cache, title embedding
`[1]` and profile embedding `[1]`. -/
theorem C3_witness :
    cacheGet [] (titleCacheKey titleT [(1 : ℝ)]) = none ∧
    ([(1 : ℝ)].length ≠ 0) ∧
    ((isJobTitleRelevant [] titleT (Except.ok [(1 : ℝ)]) [(1 : ℝ)]).1.score =
       jsRound (cosineSimilarity [(1 : ℝ)] [(1 : ℝ)] * 100) ∧
     (isJobTitleRelevant [] titleT
        (Except.error ProviderError.unreachable) [(1 : ℝ)]).1.score = -1 ∧
     (isJobRelevant (Except.ok [(1 : ℝ)]) [(1 : ℝ)]).score =
       jsRound (cosineSimilarity [(1 : ℝ)] [(1 : ℝ)] * 100) ∧
     (isJobRelevant (Except.error ProviderError.unreachable) [(1 : ℝ)]).score = -1 ∧
     -100 ≤ jsRound (cosineSimilarity [(1 : ℝ)] [(1 : ℝ)] * 100) ∧
     jsRound (cosineSimilarity [(1 : ℝ)] [(1 : ℝ)] * 100) ≤ 100 ∧
     (0 ≤ cosineSimilarity [(1 : ℝ)] [(1 : ℝ)] →
       0 ≤ jsRound (cosineSimilarity [(1 : ℝ)] [(1 : ℝ)] * 100))) :=
  ⟨rfl, by norm_num,
   C3_amended_score [] titleT [(1 : ℝ)] [(1 : ℝ)] ProviderError.unreachable
     rfl (by norm_num) (by norm_num)⟩

/-- C8, counterexample: on a cold cache a failed first call returns the
sentinel and caches nothing, so the second call with identical inputs is
NOT served from the cache: it consults the provider again (third
component `true`) and can return a different, non-bit-identical result
(`score 100` vs sentinel `-1`) — two provider calls for two identical
invocations from a cold cache. -/
theorem C8_counterexample :
    isJobTitleRelevant [] titleT (Except.error ProviderError.unreachable) [(1 : ℝ)] =
      ({ relevant := true, score := -1 }, [], true) ∧
    (isJobTitleRelevant [] titleT (Except.ok [(1 : ℝ)]) [(1 : ℝ)]).2.2 = true ∧
    (isJobTitleRelevant [] titleT (Except.ok [(1 : ℝ)]) [(1 : ℝ)]).1 ≠
      { relevant := true, score := -1 } := by
  have hc := stage1_compute [] titleT [(1 : ℝ)] [(1 : ℝ)] rfl
    (by norm_num) (by norm_num)
  refine ⟨stage1_error [] titleT ProviderError.unreachable [(1 : ℝ)] rfl, ?_, ?_⟩
  · rw [hc]
  · rw [hc]
    intro hcontra
    have hsc : jsRound (cosineSimilarity [(1 : ℝ)] [(1 : ℝ)] * 100) = -1 :=
      congrArg RelevanceResult.score hcontra
    rw [cos_one_one] at hsc
    unfold jsRound at hsc
    norm_num at hsc

/-- C8, amended: a cold-cache call whose embedding fetch succeeds
(non-empty embeddings) issues one provider call and caches its result;
any later call with identical inputs — and any warm-cache call — is served
entirely from the cache: it returns the bit-identical cached result,
leaves the cache unchanged and issues zero provider calls. Failed
(sentinel) results, however, are not cached, so they do not warm the
cache. -/
theorem C8_amended_cache (cache : TitleCache) (title : String)
    (emb profile : List ℝ)
    (hmiss : cacheGet cache (titleCacheKey title profile) = none)
    (hemb : emb.length ≠ 0) (hprof : profile.length ≠ 0) :
    (isJobTitleRelevant cache title (Except.ok emb) profile).2.2 = true ∧
    (∀ (c2 : TitleCache) (r : RelevanceResult),
      cacheGet c2 (titleCacheKey title profile) = some r →
      ∀ pr, isJobTitleRelevant c2 title pr profile = (r, c2, false)) ∧
    ∀ pr2,
      isJobTitleRelevant
          (isJobTitleRelevant cache title (Except.ok emb) profile).2.1
          title pr2 profile =
        ((isJobTitleRelevant cache title (Except.ok emb) profile).1,
         (isJobTitleRelevant cache title (Except.ok emb) profile).2.1,
         false) := by
  have hc := stage1_compute cache title emb profile hmiss hemb hprof
  have h1 : cacheGet
      (if MAX_CACHE_SIZE ≤ cache.length then cacheEvictOldest cache else cache)
      (titleCacheKey title profile) = none := by
    split_ifs
    · exact cacheGet_tail_none cache _ hmiss
    · exact hmiss
  refine ⟨by rw [hc], fun c2 r hr pr => stage1_hit c2 title pr profile r hr, ?_⟩
  intro pr2
  rw [hc]
  exact stage1_hit _ title pr2 profile _
    (cacheGet_append_single _ _ _ h1)

/-- C8, witness for `C8_amended_cache` at a concrete cold cache. -/
theorem C8_witness :
    cacheGet [] (titleCacheKey titleT [(2 : ℝ)]) = none ∧
    ([(3 : ℝ)].length ≠ 0) ∧ ([(2 : ℝ)].length ≠ 0) ∧
    ((isJobTitleRelevant [] titleT (Except.ok [(3 : ℝ)]) [(2 : ℝ)]).2.2 = true ∧
     (∀ (c2 : TitleCache) (r : RelevanceResult),
       cacheGet c2 (titleCacheKey titleT [(2 : ℝ)]) = some r →
       ∀ pr, isJobTitleRelevant c2 titleT pr [(2 : ℝ)] = (r, c2, false)) ∧
     ∀ pr2,
       isJobTitleRelevant
           (isJobTitleRelevant [] titleT (Except.ok [(3 : ℝ)]) [(2 : ℝ)]).2.1
           titleT pr2 [(2 : ℝ)] =
         ((isJobTitleRelevant [] titleT (Except.ok [(3 : ℝ)]) [(2 : ℝ)]).1,
          (isJobTitleRelevant [] titleT (Except.ok [(3 : ℝ)]) [(2 : ℝ)]).2.1,
          false)) :=
  ⟨rfl, by norm_num, by norm_num,
   C8_amended_cache [] titleT [(3 : ℝ)] [(2 : ℝ)] rfl (by norm_num) (by norm_num)⟩

/-- C10: starting from any cache within its bound, after any Stage-1 call
the cache still holds at most `MAX_CACHE_SIZE = 100` entries; fail-open
sentinel outcomes (provider rejection or empty embedding) leave the cache
unchanged — they are never inserted, so a later identical call retries the
provider; and when a computed result is inserted while the cache is full,
the oldest (first-inserted) entry is evicted and the new entry appended
last (FIFO). -/
theorem C10_cache_invariants (cache : TitleCache) (title : String)
    (profile : List ℝ) (hlen : cache.length ≤ MAX_CACHE_SIZE) :
    (∀ pr, ((isJobTitleRelevant cache title pr profile).2.1).length ≤ MAX_CACHE_SIZE) ∧
    (∀ e, (isJobTitleRelevant cache title (Except.error e) profile).2.1 = cache) ∧
    ((isJobTitleRelevant cache title (Except.ok []) profile).2.1 = cache) ∧
    (∀ emb : List ℝ, emb.length ≠ 0 → profile.length ≠ 0 →
      cacheGet cache (titleCacheKey title profile) = none →
      cache.length = MAX_CACHE_SIZE →
      (isJobTitleRelevant cache title (Except.ok emb) profile).2.1 =
        cache.tail ++ [(titleCacheKey title profile,
          (isJobTitleRelevant cache title (Except.ok emb) profile).1)]) := by
  refine ⟨?_, ?_, ?_, ?_⟩
  · intro pr
    cases hm : cacheGet cache (titleCacheKey title profile) with
    | some r => rw [stage1_hit cache title pr profile r hm]; exact hlen
    | none =>
      cases pr with
      | error e => rw [stage1_error cache title e profile hm]; exact hlen
      | ok emb =>
        by_cases hel : emb.length = 0 ∨ profile.length = 0
        · rw [stage1_sentinel_lengths cache title emb profile hm hel]; exact hlen
        · push_neg at hel
          rw [stage1_compute cache title emb profile hm hel.1 hel.2]
          rw [List.length_append]
          split_ifs with hfull
          · have hcl : cache.length = MAX_CACHE_SIZE := le_antisymm hlen hfull
            have htl : (cacheEvictOldest cache).length = cache.length - 1 :=
              List.length_tail cache
            unfold MAX_CACHE_SIZE at *
            simp only [List.length_singleton]
            omega
          · unfold MAX_CACHE_SIZE at *
            simp only [List.length_singleton]
            omega
  · intro e
    cases hm : cacheGet cache (titleCacheKey title profile) with
    | some r => rw [stage1_hit cache title (Except.error e) profile r hm]
    | none => rw [stage1_error cache title e profile hm]
  · cases hm : cacheGet cache (titleCacheKey title profile) with
    | some r => rw [stage1_hit cache title (Except.ok []) profile r hm]
    | none => rw [stage1_empty_emb cache title profile hm]
  · intro emb hemb hprof hm hfull
    rw [stage1_compute cache title emb profile hm hemb hprof]
    rw [if_pos (le_of_eq hfull.symm)]
    rfl

/-- C10, witness for `C10_cache_invariants` at the concrete empty cache. -/
theorem C10_witness :
    (([] : TitleCache).length ≤ MAX_CACHE_SIZE) ∧
    ((∀ pr, ((isJobTitleRelevant [] titleT pr [(1 : ℝ)]).2.1).length ≤ MAX_CACHE_SIZE) ∧
     (∀ e, (isJobTitleRelevant [] titleT (Except.error e) [(1 : ℝ)]).2.1 = []) ∧
     ((isJobTitleRelevant [] titleT (Except.ok []) [(1 : ℝ)]).2.1 = []) ∧
     (∀ emb : List ℝ, emb.length ≠ 0 → [(1 : ℝ)].length ≠ 0 →
       cacheGet [] (titleCacheKey titleT [(1 : ℝ)]) = none →
       ([] : TitleCache).length = MAX_CACHE_SIZE →
       (isJobTitleRelevant [] titleT (Except.ok emb) [(1 : ℝ)]).2.1 =
         ([] : TitleCache).tail ++ [(titleCacheKey titleT [(1 : ℝ)],
           (isJobTitleRelevant [] titleT (Except.ok emb) [(1 : ℝ)]).1)])) :=
  ⟨by decide, C10_cache_invariants [] titleT [(1 : ℝ)] (by decide)⟩

end LazyMate
